import Mathlib

/-!
Shallow embedding of the learner-segmentation engine of `segmentation.py`
(the pandas/Streamlit dashboard).  Per-cell operations of the DataFrame
pipeline are modelled as pure functions; a missing / unparseable value
(pandas `NaN` / `NaT`) is modelled as `none`.  Percentages are modelled as
rationals, day counts as integers.
-/

namespace Seg

/-- Python/NumPy comparison `x > c` on a possibly-NaN integer value:
a NaN (`none`) compares `False` against everything.  This is the semantics
of `days > 14`, `days > 7` in `engagement_segment` and of the
`df["Days_Since_Last_Seen"] > 10` mask. -/
def nanGtI (x : Option Int) (c : Int) : Bool :=
  match x with
  | none => false
  | some v => decide (c < v)

/-- Python/NumPy comparison `p < c` on a possibly-NaN rational value:
a NaN (`none`) compares `False` against everything.  This is the semantics
of `p < 50`, `p < 70` in `progress_segment`. -/
def nanLtQ (x : Option ℚ) (c : ℚ) : Bool :=
  match x with
  | none => false
  | some v => decide (v < c)

/-- `engagement_segment` (segmentation.py, lines 58-63).  The argument is the
`Days_Since_Last_Seen` cell, which is NaN when `Last Seen` failed to parse. -/
def engagement_segment (days : Option Int) : String :=
  if nanGtI days 14 then "Critical"
  else if nanGtI days 7 then "Moderate"
  else "On Track"

/-- `progress_segment` (segmentation.py, lines 66-71).  The argument is the
cleaned `Progress` cell, NaN when unparseable. -/
def progress_segment (p : Option ℚ) : String :=
  if nanLtQ p 50 then "Critical"
  else if nanLtQ p 70 then "Moderate"
  else "On Track"

/-- Python `str.strip()`: remove leading and trailing whitespace. -/
def pyStrip (l : List Char) : List Char :=
  ((l.dropWhile Char.isWhitespace).reverse.dropWhile Char.isWhitespace).reverse

/-- Python `str.strip().lower()` applied to a cell, as in the barriers lambda. -/
def stripLower (s : String) : String :=
  String.mk ((pyStrip s.toList).map Char.toLower)

/-- The barriers lambda (segmentation.py, lines 76-79):
`"Has Barriers" if pd.notna(x) and str(x).strip().lower() not in
["none", "no", ""] else "No Barriers"`. -/
def barriers_flag (x : Option String) : String :=
  match x with
  | none => "No Barriers"
  | some s =>
    if stripLower s = "none" ∨ stripLower s = "no" ∨ stripLower s = "" then
      "No Barriers"
    else "Has Barriers"

/-- `composite_segment` (segmentation.py, lines 82-87), as a function of the
three derived cells it reads from the row. -/
def composite_segment (es ps bf : String) : String :=
  if es = "Critical" ∨ ps = "Critical" ∨ bf = "Has Barriers" then
    "Critical / Urgent"
  else if es = "Moderate" ∨ ps = "Moderate" then
    "Moderate / At-Risk"
  else "On Track / Low Risk"

/-- One learner row after the cleaning steps of lines 36-51: `Days_Since_Last_Seen`
is `none` when `Last Seen` did not parse, `progress` is the cleaned numeric
`Progress` (`none` = NaN), `barriers` is the raw `Barriers` cell (`none` = NaN). -/
structure Record where
  first : Option String
  last : Option String
  days : Option Int
  progress : Option ℚ
  barriers : Option String
deriving DecidableEq

/-- Line 36: `df["First Name"].fillna("") + " " + df["Last Name"].fillna("")`. -/
def fullNameOf (first last : Option String) : String :=
  first.getD "" ++ " " ++ last.getD ""

/-- The `Engagement_Segment` cell of a row (line 74). -/
def engagementOf (r : Record) : String := engagement_segment r.days

/-- The `Progress_Segment` cell of a row (line 75). -/
def progressSegOf (r : Record) : String := progress_segment r.progress

/-- The `Barriers_Flag` cell of a row (lines 76-79). -/
def barrierFlagOf (r : Record) : String := barriers_flag r.barriers

/-- The `Composite_Segment` cell of a row (line 90). -/
def compositeOf (r : Record) : String :=
  composite_segment (engagementOf r) (progressSegOf r) (barrierFlagOf r)

/-- Value of a digit string, most significant first. -/
def digitsVal (l : List Char) : Nat :=
  l.foldl (fun n c => 10 * n + (c.toNat - 48)) 0

/-- Parse an unsigned decimal literal: digits with at most one decimal point,
at least one digit overall.  `none` on anything else. -/
def parseUnsigned (l : List Char) : Option ℚ :=
  let ip := l.takeWhile (fun c => c != '.')
  let rest := l.drop ip.length
  if ip.all Char.isDigit then
    match rest with
    | [] => if ip.isEmpty then none else some (digitsVal ip : ℚ)
    | _ :: frac =>
      if frac.all Char.isDigit && (!ip.isEmpty || !frac.isEmpty) then
        some ((digitsVal ip : ℚ) + (digitsVal frac : ℚ) / (10 : ℚ) ^ frac.length)
      else none
  else none

/-- Models `pd.to_numeric(cell, errors="coerce")` on one stringified cell, for
plain decimal literals: optional surrounding whitespace, optional sign, digits
with at most one decimal point.  Anything else — including the string `"nan"`
that `astype(str)` produces for a missing cell — coerces to NaN, i.e. `none`. -/
def to_numeric (s : String) : Option ℚ :=
  match pyStrip s.toList with
  | '-' :: rest => (parseUnsigned rest).map (fun q => -q)
  | '+' :: rest => parseUnsigned rest
  | l => parseUnsigned l

/-- `clean_percentage_column` (segmentation.py, lines 46-47) applied to one cell:
`str.replace("%", "")` removes every occurrence of `"%"` (Python `str.replace`
replaces all occurrences), then `pd.to_numeric(..., errors="coerce")`. -/
def clean_percentage_cell (s : String) : Option ℚ :=
  to_numeric (String.mk (s.toList.filter (fun c => c != '%')))

/-- Modelled from the spec (for comparison with `clean_percentage_cell`):
"strip a trailing `%` if present, parse as a floating-point number". -/
def spec_clean_percentage (s : String) : Option ℚ :=
  match s.toList.getLast? with
  | some '%' => to_numeric (String.mk s.toList.dropLast)
  | _ => to_numeric s

/-- `total = len(df)` (line 98). -/
def totalOf (rs : List Record) : Nat := rs.length

/-- `len(df[df["Composite_Segment"] == seg])` (lines 99-101). -/
def countComposite (rs : List Record) (seg : String) : Nat :=
  (rs.filter (fun r => compositeOf r == seg)).length

/-- Python integer/float division `a / b`: raises `ZeroDivisionError` when
`b = 0`; the raised exception is modelled as `Except.error`. -/
def pyDiv (a b : ℚ) : Except String ℚ :=
  if b = 0 then Except.error "ZeroDivisionError" else Except.ok (a / b)

/-- The KPI percentage `count/total*100` of lines 105-107. -/
def kpiPct (count tot : Nat) : Except String ℚ :=
  (pyDiv (count : ℚ) (tot : ℚ)).map (fun q => q * 100)

/-- The selection mask of `priority_df` (lines 137-141): composite Critical,
or barriers flagged, or `Days_Since_Last_Seen > 10` (false on NaN). -/
def priorityProp (r : Record) : Prop :=
  compositeOf r = "Critical / Urgent" ∨ barrierFlagOf r = "Has Barriers" ∨
    nanGtI r.days 10 = true

instance (r : Record) : Decidable (priorityProp r) := by
  unfold priorityProp
  exact inferInstance

/-- The rows passing the `priority_df` selection mask, in input order. -/
def worklist_pool (rs : List Record) : List Record :=
  rs.filter (fun r => decide (priorityProp r))

/-- Sort key of the `Days_Since_Last_Seen` cell for
`sort_values(..., ascending=[False, True])`: descending on defined values,
NaN last (`na_position="last"`, the pandas default), encoded as an ascending
key by negation with NaN mapped to the top element. -/
def daysKey : Option Int → WithTop Int
  | none => ⊤
  | some d => ((-d : Int) : WithTop Int)

/-- Sort key of the `Progress` cell: ascending, NaN last. -/
def progKey : Option ℚ → WithTop ℚ
  | none => ⊤
  | some p => (p : WithTop ℚ)

/-- The full lexicographic sort key of
`sort_values(by=["Days_Since_Last_Seen", "Progress"], ascending=[False, True])`. -/
def sortKey (r : Record) : WithTop Int ×ₗ WithTop ℚ :=
  toLex (daysKey r.days, progKey r.progress)

/-- Comparison used for the worklist sort. -/
def keyLe (r s : Record) : Prop := sortKey r ≤ sortKey s

instance : DecidableRel keyLe :=
  fun a b => inferInstanceAs (Decidable (sortKey a ≤ sortKey b))

instance : IsTotal Record keyLe :=
  ⟨fun a b => le_total (sortKey a) (sortKey b)⟩

instance : IsTrans Record keyLe :=
  ⟨fun _ _ _ h1 h2 => le_trans h1 h2⟩

/-- `priority_df` before the `No.` column (lines 137-141): filter, then stable
sort by the lexicographic key (a multi-column pandas `sort_values` is a stable
lexicographic sort via `np.lexsort`). -/
def priority_df (rs : List Record) : List Record :=
  (worklist_pool rs).insertionSort keyLe

/-- Lines 143-144: `priority_df.insert(0, "No.", range(1, len(priority_df)+1))` —
sequential numbering starting at 1 after sorting. -/
def numbered_priority_df (rs : List Record) : List (Nat × Record) :=
  (List.range' 1 (priority_df rs).length).zip (priority_df rs)

end Seg

namespace Seg

/-- Bridge from the sort comparison to the explicit ordering description:
days descending with undefined last, then (on equal days) progress ascending
with undefined last. -/
theorem keyLe_explicit {r s : Record} (h : keyLe r s) :
    (∀ a b, r.days = some a → s.days = some b → b ≤ a) ∧
    (r.days = none → s.days = none) ∧
    (r.days = s.days → ∀ p q, r.progress = some p → s.progress = some q → p ≤ q) ∧
    (r.days = s.days → r.progress = none → s.progress = none) := by
  unfold keyLe sortKey at h
  rw [Prod.Lex.le_iff] at h
  dsimp only at h
  refine ⟨?_, ?_, ?_, ?_⟩
  · intro a b ha hb
    rw [ha, hb] at h
    simp only [daysKey] at h
    rcases h with h | ⟨h, -⟩
    · rw [WithTop.coe_lt_coe] at h
      omega
    · rw [WithTop.coe_eq_coe] at h
      omega
  · intro ha
    rw [ha] at h
    simp only [daysKey] at h
    cases hb : s.days with
    | none => rfl
    | some d =>
      rw [hb] at h
      simp only [daysKey] at h
      rcases h with h | ⟨h, -⟩
      · exact absurd h not_top_lt
      · exact absurd h WithTop.top_ne_coe
  · intro hds p q hp hq
    rw [hds] at h
    rcases h with h | ⟨-, h⟩
    · exact absurd h (lt_irrefl _)
    · rw [hp, hq] at h
      simp only [progKey] at h
      rwa [WithTop.coe_le_coe] at h
  · intro hds hp
    rw [hds] at h
    rcases h with h | ⟨-, h⟩
    · exact absurd h (lt_irrefl _)
    · rw [hp] at h
      cases hq : s.progress with
      | none => rfl
      | some q =>
        rw [hq] at h
        simp [progKey] at h

/-- C1 counterexample: on an undefined numeric input the classifiers do not
return a distinct "Unknown" label — they return "On Track" (a NaN fails every
comparison, so control falls through to the final branch). -/
theorem c1_counterexample :
    engagement_segment none = "On Track" ∧ progress_segment none = "On Track" ∧
    engagement_segment none ≠ "Unknown" ∧ progress_segment none ≠ "Unknown" := by
  refine ⟨rfl, rfl, ?_, ?_⟩ <;> decide

/-- C1 (amended): on an undefined input both classifiers return "On Track";
they never return "Critical" or "Moderate" there, but there is no separate
"Unknown" segment label. -/
theorem c1_undefined_on_track :
    engagement_segment none = "On Track" ∧ progress_segment none = "On Track" ∧
    engagement_segment none ≠ "Critical" ∧ engagement_segment none ≠ "Moderate" ∧
    progress_segment none ≠ "Critical" ∧ progress_segment none ≠ "Moderate" := by
  refine ⟨rfl, rfl, ?_, ?_, ?_, ?_⟩ <;> decide

/-- C2: the composite segment is resolved by first-match precedence — Critical
iff engagement Critical, progress Critical or a barrier; otherwise Moderate iff
engagement or progress Moderate; otherwise On Track.  Includes the two quoted
scenarios (barrier alone forces Critical; Moderate engagement with no barrier
gives Moderate). -/
theorem c2_composite_precedence (es ps bf : String) :
    (composite_segment es ps bf = "Critical / Urgent" ↔
      es = "Critical" ∨ ps = "Critical" ∨ bf = "Has Barriers") ∧
    (composite_segment es ps bf = "Moderate / At-Risk" ↔
      ¬(es = "Critical" ∨ ps = "Critical" ∨ bf = "Has Barriers") ∧
        (es = "Moderate" ∨ ps = "Moderate")) ∧
    (composite_segment es ps bf = "On Track / Low Risk" ↔
      ¬(es = "Critical" ∨ ps = "Critical" ∨ bf = "Has Barriers") ∧
        ¬(es = "Moderate" ∨ ps = "Moderate")) ∧
    composite_segment "On Track" "On Track" "Has Barriers" = "Critical / Urgent" ∧
    composite_segment "Moderate" "On Track" "No Barriers" = "Moderate / At-Risk" := by
  refine ⟨?_, ?_, ?_, by decide, by decide⟩ <;>
  · unfold composite_segment
    split_ifs with h1 h2 <;> simp_all

/-- C3: for a defined day count the engagement classifier partitions the domain
at the boundaries 7 and 14, with the quoted boundary values. -/
theorem c3_engagement_thresholds (d : Int) :
    (engagement_segment (some d) = "Critical" ↔ 14 < d) ∧
    (engagement_segment (some d) = "Moderate" ↔ 7 < d ∧ d ≤ 14) ∧
    (engagement_segment (some d) = "On Track" ↔ d ≤ 7) ∧
    (engagement_segment (some d) = "Critical" ∨ engagement_segment (some d) = "Moderate" ∨
      engagement_segment (some d) = "On Track") ∧
    engagement_segment (some 7) = "On Track" ∧ engagement_segment (some 8) = "Moderate" ∧
    engagement_segment (some 14) = "Moderate" ∧ engagement_segment (some 15) = "Critical" := by
  refine ⟨?_, ?_, ?_, ?_, by decide, by decide, by decide, by decide⟩ <;>
  · simp only [engagement_segment, nanGtI, decide_eq_true_eq]
    split_ifs with h1 h2 <;> simp_all <;> omega

/-- C4: for a defined progress value the progress classifier partitions the
domain at the boundaries 50 and 70, with the quoted boundary values. -/
theorem c4_progress_thresholds (p : ℚ) :
    (progress_segment (some p) = "Critical" ↔ p < 50) ∧
    (progress_segment (some p) = "Moderate" ↔ 50 ≤ p ∧ p < 70) ∧
    (progress_segment (some p) = "On Track" ↔ 70 ≤ p) ∧
    (progress_segment (some p) = "Critical" ∨ progress_segment (some p) = "Moderate" ∨
      progress_segment (some p) = "On Track") ∧
    progress_segment (some 49.9) = "Critical" ∧ progress_segment (some 50) = "Moderate" ∧
    progress_segment (some 69.9) = "Moderate" ∧ progress_segment (some 70) = "On Track" := by
  refine ⟨?_, ?_, ?_, ?_, by norm_num [progress_segment, nanLtQ], by decide,
    by norm_num [progress_segment, nanLtQ], by decide⟩ <;>
  · simp only [progress_segment, nanLtQ, decide_eq_true_eq]
    split_ifs with h1 h2 <;> simp_all <;> linarith

end Seg

namespace Seg

/-- C5: a row is selected for the priority worklist iff its composite segment
is Critical, or its barrier flag is set, or its day count is defined and
greater than 10 (an undefined day count never satisfies the inactivity
condition).  A row with 11 days since last seen is always included; the quoted
row with 5 days, On-Track composite and no barrier is excluded. -/
theorem c5_priority_selection (r : Record) :
    (priorityProp r ↔
      compositeOf r = "Critical / Urgent" ∨ barrierFlagOf r = "Has Barriers" ∨
        ∃ d, r.days = some d ∧ 10 < d) ∧
    (r.days = some 11 → priorityProp r) ∧
    ¬priorityProp ⟨none, none, some 5, some 80, none⟩ := by
  have hiff : nanGtI r.days 10 = true ↔ ∃ d, r.days = some d ∧ 10 < d := by
    cases h : r.days <;> simp [nanGtI]
  refine ⟨?_, ?_, by decide⟩
  · unfold priorityProp
    rw [hiff]
  · intro h11
    refine Or.inr (Or.inr ?_)
    rw [h11]
    decide

/-- C5 witness: the inclusion rule applied to a concrete row with 11 days
since last seen. -/
theorem c5_witness : priorityProp ⟨none, none, some 11, some 80, none⟩ :=
  (c5_priority_selection ⟨none, none, some 11, some 80, none⟩).2.1 rfl

/-- C6: the priority worklist is pairwise ordered by days descending
(undefined last) then, on equal day counts, progress ascending (undefined
last); the sort is stable (rows with equal sort keys keep their relative input
order); rows are numbered sequentially from 1 after sorting; and of two rows
with days 20 and progress 40 resp. 30, the one with progress 30 ranks first. -/
theorem c6_worklist_order (rs : List Record) :
    ((priority_df rs).Pairwise (fun r s =>
      (∀ a b, r.days = some a → s.days = some b → b ≤ a) ∧
      (r.days = none → s.days = none) ∧
      (r.days = s.days → ∀ p q, r.progress = some p → s.progress = some q → p ≤ q) ∧
      (r.days = s.days → r.progress = none → s.progress = none))) ∧
    (∀ r s, [r, s].Sublist (worklist_pool rs) → sortKey r = sortKey s →
      [r, s].Sublist (priority_df rs)) ∧
    ((numbered_priority_df rs).map Prod.fst = List.range' 1 (priority_df rs).length) ∧
    (∀ A B : Record, A.days = some 20 → A.progress = some 40 → B.days = some 20 →
      B.progress = some 30 → priority_df [A, B] = [B, A]) := by
  refine ⟨?_, ?_, ?_, ?_⟩
  · exact List.Pairwise.imp (fun h => keyLe_explicit h) (List.sorted_insertionSort keyLe _)
  · intro r s hsub hkey
    exact List.pair_sublist_insertionSort (le_of_eq hkey) hsub
  · exact List.map_fst_zip _ _ (by rw [List.length_range'])
  · intro A B hAd hAp hBd hBp
    have hA : priorityProp A := by
      refine Or.inr (Or.inr ?_)
      rw [hAd]
      decide
    have hB : priorityProp B := by
      refine Or.inr (Or.inr ?_)
      rw [hBd]
      decide
    have hpool : worklist_pool [A, B] = [A, B] := by
      simp [worklist_pool, List.filter, decide_eq_true hA, decide_eq_true hB]
    have hnle : ¬keyLe A B := by
      unfold keyLe sortKey
      rw [hAd, hAp, hBd, hBp]
      decide
    rw [priority_df, hpool]
    simp [List.insertionSort, List.orderedInsert, hnle]

/-- C6 witness: the ordering rule applied to two concrete rows with equal day
counts and progress 40 resp. 30. -/
theorem c6_witness :
    priority_df [⟨none, none, some 20, some 40, none⟩, ⟨none, none, some 20, some 30, none⟩] =
      [⟨none, none, some 20, some 30, none⟩, ⟨none, none, some 20, some 40, none⟩] :=
  (c6_worklist_order
      [⟨none, none, some 20, some 40, none⟩, ⟨none, none, some 20, some 30, none⟩]).2.2.2
    ⟨none, none, some 20, some 40, none⟩ ⟨none, none, some 20, some 30, none⟩ rfl rfl rfl rfl

/-- C7: on an empty collection the total and all per-segment counts are 0, but
the KPI percentage `count/total*100` is not guarded: with `total = 0` the
division raises `ZeroDivisionError` instead of reporting 0 or undefined. -/
theorem c7_empty_input_division_error :
    totalOf [] = 0 ∧
    countComposite [] "Critical / Urgent" = 0 ∧
    countComposite [] "Moderate / At-Risk" = 0 ∧
    countComposite [] "On Track / Low Risk" = 0 ∧
    kpiPct (countComposite [] "Critical / Urgent") (totalOf []) =
      Except.error "ZeroDivisionError" :=
  ⟨rfl, rfl, rfl, rfl, rfl⟩

/-- C8 counterexample: the cleaning step does not strip only a trailing `%` —
it removes every `%`.  On `"7%3"` the code yields 73.0, while stripping only a
trailing `%` and parsing the remainder would yield undefined. -/
theorem c8_counterexample :
    clean_percentage_cell "7%3" = some 73 ∧ spec_clean_percentage "7%3" = none := by
  refine ⟨?_, ?_⟩ <;> decide

/-- C8 (amended): percentage cleaning removes every `%` character (not only a
trailing one) and parses the remainder; `"73%"` yields 73.0, an unparseable
`"abc"` yields undefined without an error, and out-of-range values are not
clamped. -/
theorem c8_percentage_cleaning :
    clean_percentage_cell "73%" = some 73 ∧
    clean_percentage_cell "abc" = none ∧
    clean_percentage_cell "150%" = some 150 ∧
    clean_percentage_cell "%%7%3%" = some 73 := by
  refine ⟨?_, ?_, ?_, ?_⟩ <;> decide

/-- C9 counterexample: the derived full name is not trimmed — a row with only
a first name keeps the trailing separator space. -/
theorem c9_counterexample :
    fullNameOf (some "Ada") none = "Ada " ∧ "Ada " ≠ "Ada" := by
  refine ⟨rfl, ?_⟩
  decide

/-- C9 (amended): the derived full name is always first-name-or-empty, one
space, last-name-or-empty, with no trimming: a missing name leaves the
separator space in place. -/
theorem c9_full_name (f l : String) :
    fullNameOf (some f) (some l) = f ++ " " ++ l ∧
    fullNameOf (some f) none = f ++ " " ∧
    fullNameOf none (some l) = " " ++ l ∧
    fullNameOf none none = " " := by
  refine ⟨rfl, ?_, ?_, rfl⟩ <;> simp [fullNameOf]

/-- C10: a row whose day count and progress are both undefined and whose
barriers cell normalizes to no-barrier gets composite segment
"On Track / Low Risk": fully-unknown input falls through to the lowest risk
class. -/
theorem c10_unknown_defaults_on_track (fn ln b : Option String)
    (hb : barriers_flag b = "No Barriers") :
    compositeOf ⟨fn, ln, none, none, b⟩ = "On Track / Low Risk" := by
  simp [compositeOf, engagementOf, progressSegOf, barrierFlagOf, engagement_segment,
    progress_segment, nanGtI, nanLtQ, composite_segment, hb]

/-- C10 witness: a concrete fully-unknown row with barriers cell `" None "`. -/
theorem c10_witness :
    compositeOf ⟨none, none, none, none, some " None "⟩ = "On Track / Low Risk" :=
  c10_unknown_defaults_on_track none none (some " None ") (by decide)

end Seg
